import Mathlib

/-!
Shallow embedding of the NexTicket server (src/index.js).

The MongoDB collections are modelled as association lists keyed by the
document id (a Nat for ObjectId keys, a String for user emails).  Each
route handler that the claims mention becomes a pure function from a
database state to a result paired with the next state.  MongoDB
updateOne is modelled by updating the first list entry matching the
filter, updateMany by a conditional map, countDocuments by countP and
findOne by find?.  Wall-clock timestamp fields (createdAt, updatedAt,
paidAt, verifiedAt, advertisedAt, acceptedAt, rejectedAt) are omitted:
no claim mentions them and they carry no program logic.
-/

namespace NexTicket

/-- Ticket verification status: the values stored in verificationStatus. -/
inductive VStatus where
  | pending
  | approved
  | rejected
deriving DecidableEq, Repr

/-- Booking status: the values stored in a booking status field. -/
inductive BStatus where
  | pending
  | accepted
  | rejected
  | paid
deriving DecidableEq, Repr

/-- A ticket document (fields the claims mention, plus pricePerUnit as a
representative vendor-editable field). -/
structure Ticket where
  vendorEmail : String
  quantity : Int
  pricePerUnit : Int
  verificationStatus : VStatus
  isAdvertised : Bool
deriving DecidableEq, Repr

/-- A booking document. -/
structure Booking where
  ticketId : Nat
  userEmail : String
  bookingQuantity : Int
  status : BStatus
  transactionId : Option String
deriving DecidableEq, Repr

/-- A user document. -/
structure User where
  role : String
  isFraud : Bool
deriving DecidableEq, Repr

/-- A transaction document (written only by POST /api/transactions). -/
structure TxnRecord where
  bookingId : Nat
  amount : Int
deriving DecidableEq, Repr

/-- The database state: the four collections used by the server. -/
structure DB where
  users : List (String × User)
  tickets : List (Nat × Ticket)
  bookings : List (Nat × Booking)
  transactions : List TxnRecord
deriving DecidableEq, Repr

/-- MongoDB updateOne semantics: rewrite the first element satisfying the
filter, leave everything else alone. -/
def updateFirst (p : α → Bool) (f : α → α) : List α → List α
  | [] => []
  | x :: xs => if p x then f x :: xs else x :: updateFirst p f xs

/-- Result of PATCH /api/bookings/:id/pay. -/
inductive PayResult where
  | ok
  | notFound
deriving DecidableEq, Repr

/-- Result of PATCH /api/bookings/:id/accept and /reject. -/
inductive DecideResult where
  | ok
  | notFound
deriving DecidableEq, Repr

/-- Result of PATCH /api/tickets/:id/advertise (slotPoolFull is the 400
"Cannot advertise more than 6 tickets" branch, notFound the 404
"Ticket not found or not approved" branch). -/
inductive AdvResult where
  | ok
  | slotPoolFull
  | notFound
deriving DecidableEq, Repr

/-- Result of PATCH /api/tickets/:id/verify. -/
inductive VerifyResult where
  | ok
  | invalidStatus
  | notFound
deriving DecidableEq, Repr

/-- Result of PATCH /api/users/:email/fraud. -/
inductive FraudResult where
  | ok
  | vendorNotFound
deriving DecidableEq, Repr

/-- Result of PATCH /api/tickets/:id. -/
inductive UpdateResult where
  | ok
  | notFound
deriving DecidableEq, Repr

/-- POST /api/tickets (src/index.js lines 295-323): spreads the request
body into a new document and then overrides verificationStatus with
pending and isAdvertised with false, so the override wins over any
client-supplied values. -/
def createTicket (db : DB) (newId : Nat) (body : Ticket) : DB :=
  { db with tickets :=
      (newId, { body with verificationStatus := VStatus.pending,
                          isAdvertised := false }) :: db.tickets }

/-- A request body for PATCH /api/tickets/:id: each field the client may
send, present or absent. -/
structure TicketPatch where
  vendorEmail : Option String
  quantity : Option Int
  pricePerUnit : Option Int
  verificationStatus : Option VStatus
  isAdvertised : Option Bool
deriving DecidableEq, Repr

/-- The delete statements of the route: verificationStatus, isAdvertised
and vendorEmail are removed from the update body (the _id field has no
counterpart here since keys are held outside the document). -/
def stripProtected (p : TicketPatch) : TicketPatch :=
  { p with verificationStatus := none, isAdvertised := none,
           vendorEmail := none }

/-- MongoDB Dollar-set of the remaining body fields onto a ticket. -/
def applyPatch (p : TicketPatch) (t : Ticket) : Ticket :=
  { vendorEmail := p.vendorEmail.getD t.vendorEmail
    quantity := p.quantity.getD t.quantity
    pricePerUnit := p.pricePerUnit.getD t.pricePerUnit
    verificationStatus := p.verificationStatus.getD t.verificationStatus
    isAdvertised := p.isAdvertised.getD t.isAdvertised }

/-- PATCH /api/tickets/:id (src/index.js lines 576-626): strips the
protected fields from the body, then updateOne on _id with the rest;
404 when no document matches. -/
def updateTicketRoute (db : DB) (id : Nat) (body : TicketPatch) :
    UpdateResult × DB :=
  if db.tickets.any (fun e => e.1 == id) then
    let ts := updateFirst (fun e => e.1 == id)
      (fun e => (e.1, applyPatch (stripProtected body) e.2)) db.tickets
    (UpdateResult.ok, { db with tickets := ts })
  else (UpdateResult.notFound, db)

/-- PATCH /api/tickets/:id/verify (src/index.js lines 666-718): the body
value must be approved or rejected (anything else is a 400, modelled by
the pending case), then updateOne on _id sets verificationStatus only;
the isAdvertised flag is not touched. -/
def verifyTicket (db : DB) (id : Nat) (decision : VStatus) :
    VerifyResult × DB :=
  if decision = VStatus.pending then (VerifyResult.invalidStatus, db)
  else if db.tickets.any (fun e => e.1 == id) then
    let ts := updateFirst (fun e => e.1 == id)
      (fun e => (e.1, { e.2 with verificationStatus := decision })) db.tickets
    (VerifyResult.ok, { db with tickets := ts })
  else (VerifyResult.notFound, db)

/-- A ticket counted by the advertise cap check: isAdvertised true and
verificationStatus approved. -/
def isSlotHolder (t : Ticket) : Bool :=
  t.isAdvertised && t.verificationStatus == VStatus.approved

/-- countDocuments of the advertise cap check. -/
def advCount (l : List (Nat × Ticket)) : Nat :=
  l.countP (fun e => isSlotHolder e.2)

/-- The updateOne filter of the advertise route:
{ _id: id, verificationStatus: approved }. -/
def advFilter (id : Nat) (e : Nat × Ticket) : Bool :=
  e.1 == id && e.2.verificationStatus == VStatus.approved

/-- The updateOne body of the advertise route: set isAdvertised. -/
def setAdv (adv : Bool) (e : Nat × Ticket) : Nat × Ticket :=
  (e.1, { e.2 with isAdvertised := adv })

/-- PATCH /api/tickets/:id/advertise (src/index.js lines 721-783): when
granting, first a countDocuments check refuses once 6 slots are held;
then updateOne with filter { _id, verificationStatus: approved } sets
isAdvertised; 404 when the filter matches nothing. -/
def advertiseTicket (db : DB) (id : Nat) (adv : Bool) : AdvResult × DB :=
  if adv && decide (6 ≤ advCount db.tickets) then
    (AdvResult.slotPoolFull, db)
  else if db.tickets.any (advFilter id) then
    let ts := updateFirst (advFilter id) (setAdv adv) db.tickets
    (AdvResult.ok, { db with tickets := ts })
  else (AdvResult.notFound, db)

/-- PATCH /api/bookings/:id/accept (src/index.js lines 872-913):
updateOne on _id sets status to accepted with no precondition on the
current status; 404 when the booking does not exist. -/
def acceptBooking (db : DB) (id : Nat) : DecideResult × DB :=
  if db.bookings.any (fun e => e.1 == id) then
    let bs := updateFirst (fun e => e.1 == id)
      (fun e => (e.1, { e.2 with status := BStatus.accepted })) db.bookings
    (DecideResult.ok, { db with bookings := bs })
  else (DecideResult.notFound, db)

/-- PATCH /api/bookings/:id/reject (src/index.js lines 916-957): same as
accept but sets status to rejected. -/
def rejectBooking (db : DB) (id : Nat) : DecideResult × DB :=
  if db.bookings.any (fun e => e.1 == id) then
    let bs := updateFirst (fun e => e.1 == id)
      (fun e => (e.1, { e.2 with status := BStatus.rejected })) db.bookings
    (DecideResult.ok, { db with bookings := bs })
  else (DecideResult.notFound, db)

/-- PATCH /api/bookings/:id/pay (src/index.js lines 960-1015): findOne
the booking (404 if absent), then unconditionally updateOne the booking
to status paid with the transaction id, and updateOne the referenced
ticket with an unchecked increment of quantity by minus
bookingQuantity.  No status precondition, no stock check, and the
transactions collection is never written. -/
def payBooking (db : DB) (id : Nat) (txRef : String) : PayResult × DB :=
  match db.bookings.find? (fun e => e.1 == id) with
  | none => (PayResult.notFound, db)
  | some e =>
      let bs := updateFirst (fun b => b.1 == id)
        (fun b => (b.1, { b.2 with status := BStatus.paid,
                                   transactionId := some txRef })) db.bookings
      let ts := updateFirst (fun t => t.1 == e.2.ticketId)
        (fun t => (t.1, { t.2 with
            quantity := t.2.quantity - e.2.bookingQuantity })) db.tickets
      (PayResult.ok, { db with bookings := bs, tickets := ts })

/-- The filter { email, role: "vendor" } of the fraud route. -/
def isVendorEntry (email : String) (u : String × User) : Bool :=
  u.1 == email && u.2.role == "vendor"

/-- The updateMany body of the fraud route: every ticket of the vendor
gets verificationStatus rejected; no other field is touched. -/
def rejectVendorTicket (email : String) (e : Nat × Ticket) : Nat × Ticket :=
  if e.2.vendorEmail == email then
    (e.1, { e.2 with verificationStatus := VStatus.rejected })
  else e

/-- PATCH /api/users/:email/fraud (src/index.js lines 236-272):
updateOne on { email, role: vendor } sets isFraud (404 when it matches
nothing, and then the tickets are left alone), followed by updateMany
setting verificationStatus rejected on every ticket with that
vendorEmail.  The isAdvertised flag is not touched. -/
def markVendorFraudulent (db : DB) (email : String) : FraudResult × DB :=
  if db.users.any (isVendorEntry email) then
    let us := updateFirst (isVendorEntry email)
      (fun u => (u.1, { u.2 with isFraud := true })) db.users
    let ts := db.tickets.map (rejectVendorTicket email)
    (FraudResult.ok, { db with users := us, tickets := ts })
  else (FraudResult.vendorNotFound, db)

/-- A sequence of grant attempts, one per listed ticket id. -/
def grantSeq (db : DB) : List Nat → DB
  | [] => db
  | id :: ids => grantSeq (advertiseTicket db id true).2 ids

/-- A ticket used to build concrete states. -/
def mkTicket (vendor : String) (qty : Int) (vs : VStatus) (adv : Bool) :
    Ticket :=
  { vendorEmail := vendor, quantity := qty, pricePerUnit := 100,
    verificationStatus := vs, isAdvertised := adv }

/-- A booking used to build concrete states. -/
def mkBooking (tid : Nat) (qty : Int) (st : BStatus) : Booking :=
  { ticketId := tid, userEmail := "u", bookingQuantity := qty,
    status := st, transactionId := none }

/-- State for C1: ticket 1 has 2 units left, booking 1 is accepted and
asks for 5 units. -/
def dbC1 : DB :=
  { users := [], tickets := [(1, mkTicket "v" 2 VStatus.approved false)],
    bookings := [(1, mkBooking 1 5 BStatus.accepted)], transactions := [] }

/-- State for C2: ticket 1 has 2 units left, booking 1 is accepted and
asks for 5 units. -/
def dbC2 : DB :=
  { users := [], tickets := [(1, mkTicket "v" 2 VStatus.approved false)],
    bookings := [(1, mkBooking 1 5 BStatus.accepted)], transactions := [] }

/-- State for C3: booking 1 is already rejected, a terminal status. -/
def dbC3 : DB :=
  { users := [], tickets := [(1, mkTicket "v" 10 VStatus.approved false)],
    bookings := [(1, mkBooking 1 3 BStatus.rejected)], transactions := [] }

/-- State for C5: ticket 1 is approved and holds an advertisement slot;
ticket 2 of the same vendor likewise, for the fraud cascade. -/
def dbC5 : DB :=
  { users := [("v", { role := "vendor", isFraud := false })],
    tickets := [(1, mkTicket "v" 10 VStatus.approved true),
                (2, mkTicket "v" 10 VStatus.approved true)],
    bookings := [], transactions := [] }

/-- State for C7: booking 1 is already paid, a terminal status. -/
def dbC7 : DB :=
  { users := [], tickets := [(1, mkTicket "v" 10 VStatus.approved false)],
    bookings := [(1, mkBooking 1 3 BStatus.paid)], transactions := [] }

/-- C1: the claim says markPaid commits status change, decrement and a
Transaction insert atomically, and fails with InsufficientStock when
stock is short, leaving the booking accepted.  The code has no stock
check and never writes a Transaction: with 2 units left and an accepted
booking for 5 units, the route reports success, sets the booking to
paid, drives the quantity to minus 3 and leaves the transactions
collection empty. -/
theorem payBooking_commits_despite_insufficient_stock :
    (payBooking dbC1 1 "tx").1 = PayResult.ok ∧
    ((payBooking dbC1 1 "tx").2.bookings.find? (fun e => e.1 == 1)).map
        (fun e => e.2.status) = some BStatus.paid ∧
    ((payBooking dbC1 1 "tx").2.tickets.find? (fun e => e.1 == 1)).map
        (fun e => e.2.quantity) = some (-3) ∧
    (payBooking dbC1 1 "tx").2.transactions = [] := by
  decide

/-- C2: the claim says a reservation succeeds only when enough stock
remains, a failed reservation mutates nothing, and the remaining
quantity is never negative.  The code applies an unchecked decrement:
paying an accepted booking for 5 units against a ticket holding 2 units
succeeds and leaves the remaining quantity at minus 3, which is
negative. -/
theorem reserve_drives_quantity_negative :
    (payBooking dbC2 1 "tx").1 = PayResult.ok ∧
    ((payBooking dbC2 1 "tx").2.tickets.find? (fun e => e.1 == 1)).map
        (fun e => decide (e.2.quantity < 0)) = some true := by
  decide

/-- C3: the claim says markPaid on a booking whose status is not
accepted fails with InvalidTransition and leaves the booking unchanged,
and that terminal bookings are never mutated.  The code checks only
existence: paying booking 1, whose status is the terminal rejected,
reports success, flips the status to paid and decrements the ticket. -/
theorem payBooking_ignores_status_precondition :
    (payBooking dbC3 1 "tx").1 = PayResult.ok ∧
    ((payBooking dbC3 1 "tx").2.bookings.find? (fun e => e.1 == 1)).map
        (fun e => e.2.status) = some BStatus.paid ∧
    ((payBooking dbC3 1 "tx").2.tickets.find? (fun e => e.1 == 1)).map
        (fun e => e.2.quantity) = some 7 := by
  decide

/-- C5: the claim says every transition of a ticket to rejected leaves
isAdvertised false.  Neither the admin verify route nor the fraud
cascade touches isAdvertised: rejecting the approved advertised ticket
1 via verify leaves its flag true, and the fraud cascade on the vendor
leaves the flag of ticket 2 true while rejecting it. -/
theorem reject_leaves_advertised_flag_set :
    ((verifyTicket dbC5 1 VStatus.rejected).2.tickets.find?
        (fun e => e.1 == 1)).map
        (fun e => (e.2.verificationStatus, e.2.isAdvertised))
      = some (VStatus.rejected, true) ∧
    ((markVendorFraudulent dbC5 "v").2.tickets.find?
        (fun e => e.1 == 2)).map
        (fun e => (e.2.verificationStatus, e.2.isAdvertised))
      = some (VStatus.rejected, true) := by
  decide

/-- C7: the claim says decide on a booking whose status is not pending
fails with InvalidTransition and leaves it unmodified.  The code checks
only existence: accepting booking 1, whose status is the terminal paid,
reports success and rewrites the status to accepted. -/
theorem acceptBooking_ignores_status_precondition :
    (acceptBooking dbC7 1).1 = DecideResult.ok ∧
    ((acceptBooking dbC7 1).2.bookings.find? (fun e => e.1 == 1)).map
        (fun e => e.2.status) = some BStatus.accepted := by
  decide

/-- Rewriting one list element changes a countP by at most one. -/
lemma countP_updateFirst_le (q p : α → Bool) (f : α → α) :
    ∀ l : List α, (updateFirst p f l).countP q ≤ l.countP q + 1 := by
  intro l
  induction l with
  | nil => simp [updateFirst]
  | cons x xs ih =>
    cases hx : p x with
    | true =>
      simp only [updateFirst, hx, if_true, List.countP_cons]
      split_ifs <;> omega
    | false =>
      simp only [updateFirst, hx, Bool.false_eq_true, if_false,
        List.countP_cons]
      have := ih
      omega

/-- One grant attempt keeps the slot count within the cap. -/
lemma advCount_grant_step (db : DB) (id : Nat)
    (h : advCount db.tickets ≤ 6) :
    advCount (advertiseTicket db id true).2.tickets ≤ 6 := by
  unfold advertiseTicket
  by_cases h6 : 6 ≤ advCount db.tickets
  · simp [h6]
    exact h
  · by_cases ha : db.tickets.any (advFilter id) = true
    · simp only [h6, decide_eq_true_eq, Bool.true_and, decide_eq_false,
        Bool.false_eq_true, if_false, ha, if_true]
      have hle := countP_updateFirst_le (fun e => isSlotHolder e.2)
        (advFilter id) (setAdv true) db.tickets
      have h5 : advCount db.tickets ≤ 5 := by omega
      unfold advCount at *
      omega
    · simp [h6, ha]
      exact h

/-- Any sequence of grant attempts keeps the slot count within the cap. -/
lemma grantSeq_bound :
    ∀ (ids : List Nat) (db : DB), advCount db.tickets ≤ 6 →
      advCount (grantSeq db ids).tickets ≤ 6 := by
  intro ids
  induction ids with
  | nil => intro db h; simpa [grantSeq] using h
  | cons id ids ih =>
    intro db h
    simp only [grantSeq]
    exact ih _ (advCount_grant_step db id h)

/-- C4: starting from any state within the six-slot cap, every sequence
of grant attempts keeps the count of advertised approved tickets at
most 6, and a grant attempted when 6 slots are held is refused by the
countDocuments check before any write. -/
theorem grantSlot_pool_bound (db : DB) (ids : List Nat)
    (h : advCount db.tickets ≤ 6) :
    advCount (grantSeq db ids).tickets ≤ 6 ∧
    (∀ id, 6 ≤ advCount db.tickets →
        advertiseTicket db id true = (AdvResult.slotPoolFull, db)) := by
  refine ⟨grantSeq_bound ids db h, fun id h6 => ?_⟩
  unfold advertiseTicket
  simp [h6]

/-- State for the C4 witness: six advertised approved tickets already
hold the slots and ticket 7 is approved but unadvertised. -/
def dbC4 : DB :=
  { users := [],
    tickets := [(1, mkTicket "v" 5 VStatus.approved true),
                (2, mkTicket "v" 5 VStatus.approved true),
                (3, mkTicket "v" 5 VStatus.approved true),
                (4, mkTicket "v" 5 VStatus.approved true),
                (5, mkTicket "v" 5 VStatus.approved true),
                (6, mkTicket "v" 5 VStatus.approved true),
                (7, mkTicket "v" 5 VStatus.approved false)],
    bookings := [], transactions := [] }

/-- Witness for C4 at a concrete full pool. -/
theorem grantSlot_pool_bound_witness :
    advCount dbC4.tickets ≤ 6 ∧
    advCount (grantSeq dbC4 [7]).tickets ≤ 6 ∧
    advertiseTicket dbC4 7 true = (AdvResult.slotPoolFull, dbC4) :=
  ⟨by decide, (grantSlot_pool_bound dbC4 [7] (by decide)).1,
   (grantSlot_pool_bound dbC4 [7] (by decide)).2 7 (by decide)⟩

/-- If the rewrite keeps the filter satisfied, updateFirst keeps a
matching element present. -/
lemma any_updateFirst_pres (p : α → Bool) (f : α → α)
    (hp : ∀ x, p x = true → p (f x) = true) :
    ∀ l : List α, l.any p = true → (updateFirst p f l).any p = true := by
  intro l
  induction l with
  | nil => simp
  | cons x xs ih =>
    intro h
    cases hx : p x with
    | true => simp [updateFirst, hx, hp x hx]
    | false =>
      simp only [List.any_cons, hx, Bool.false_or] at h
      simp [updateFirst, hx, ih h]

/-- updateFirst is idempotent when the rewrite is idempotent and keeps
the filter satisfied. -/
lemma updateFirst_idem (p : α → Bool) (f : α → α)
    (hp : ∀ x, p x = true → p (f x) = true)
    (hf : ∀ x, p x = true → f (f x) = f x) :
    ∀ l : List α, updateFirst p f (updateFirst p f l) = updateFirst p f l := by
  intro l
  induction l with
  | nil => rfl
  | cons x xs ih =>
    cases hx : p x with
    | true => simp [updateFirst, hx, hp x hx, hf x hx]
    | false => simp [updateFirst, hx, ih]

/-- Mapping an idempotent function twice equals mapping it once. -/
lemma map_idem (g : α → α) (hg : ∀ x, g (g x) = g x) :
    ∀ l : List α, (l.map g).map g = l.map g := by
  intro l
  induction l with
  | nil => rfl
  | cons x xs ih => simp [hg x, ih]

/-- The per-ticket fraud rewrite is idempotent. -/
lemma rejectVendorTicket_idem (email : String) (e : Nat × Ticket) :
    rejectVendorTicket email (rejectVendorTicket email e)
      = rejectVendorTicket email e := by
  unfold rejectVendorTicket
  cases he : e.2.vendorEmail == email with
  | true => simp [he]
  | false => simp [he]

/-- C6 (amended): a successful fraud call leaves every ticket of the
vendor with verificationStatus rejected (the isAdvertised flag is left
as it was), and calling the route a second time reports success again
and produces exactly the same state. -/
theorem markVendorFraudulent_idem (db : DB) (email : String)
    (h : (markVendorFraudulent db email).1 = FraudResult.ok) :
    (∀ p ∈ (markVendorFraudulent db email).2.tickets,
        p.2.vendorEmail = email →
        p.2.verificationStatus = VStatus.rejected) ∧
    markVendorFraudulent (markVendorFraudulent db email).2 email
      = (FraudResult.ok, (markVendorFraudulent db email).2) := by
  by_cases hv : db.users.any (isVendorEntry email) = true
  · constructor
    · intro p hp hpe
      simp only [markVendorFraudulent, hv, if_true] at hp
      obtain ⟨q, hq, rfl⟩ := List.mem_map.mp hp
      cases hqe : q.2.vendorEmail == email with
      | true => simp [rejectVendorTicket, hqe]
      | false =>
        have hid : rejectVendorTicket email q = q := by
          simp [rejectVendorTicket, hqe]
        rw [hid] at hpe
        exact absurd hpe (beq_eq_false_iff_ne.mp hqe)
    · have hu := updateFirst_idem (isVendorEntry email)
        (fun u => (u.1, { u.2 with isFraud := true }))
        (fun x hx => hx) (fun x _ => rfl) db.users
      have ht := map_idem (rejectVendorTicket email)
        (rejectVendorTicket_idem email) db.tickets
      have ha2 := any_updateFirst_pres (isVendorEntry email)
        (fun u => (u.1, { u.2 with isFraud := true }))
        (fun x hx => hx) db.users hv
      simp [markVendorFraudulent, hv, ha2, hu, ht]
  · simp only [markVendorFraudulent, hv, Bool.false_eq_true, if_false] at h
    exact absurd h (by decide)

/-- State for the C6 counterexample and witness: vendor v owns the
approved advertised ticket 1; ticket 2 belongs to someone else. -/
def dbC6 : DB :=
  { users := [("v", { role := "vendor", isFraud := false })],
    tickets := [(1, mkTicket "v" 5 VStatus.approved true),
                (2, mkTicket "w" 5 VStatus.pending false)],
    bookings := [], transactions := [] }

/-- Counterexample for C6: after one fraud call on vendor v, ticket 1 is
rejected but still flagged isAdvertised, so it does not hold
"advertised = false" as the claim demands. -/
theorem markVendorFraudulent_keeps_advertised_flag :
    ((markVendorFraudulent dbC6 "v").2.tickets.find? (fun e => e.1 == 1)).map
        (fun e => (e.2.verificationStatus, e.2.isAdvertised))
      = some (VStatus.rejected, true) := by
  decide

/-- State for the C6 witness, distinct from the counterexample state. -/
def dbC6w : DB :=
  { users := [("v", { role := "vendor", isFraud := false })],
    tickets := [(1, mkTicket "v" 5 VStatus.approved true),
                (2, mkTicket "v" 5 VStatus.rejected false)],
    bookings := [], transactions := [] }

/-- Witness for C6 at a concrete vendor. -/
theorem markVendorFraudulent_idem_witness :
    (markVendorFraudulent dbC6w "v").1 = FraudResult.ok ∧
    markVendorFraudulent (markVendorFraudulent dbC6w "v").2 "v"
      = (FraudResult.ok, (markVendorFraudulent dbC6w "v").2) :=
  ⟨by decide, (markVendorFraudulent_idem dbC6w "v" (by decide)).2⟩

/-- When the first entry keyed id is approved, the advertise filter
matches and updateFirst rewrites exactly that entry. -/
lemma revoke_core (id : Nat) (t : Ticket) :
    ∀ l : List (Nat × Ticket),
      l.find? (fun e => e.1 == id) = some (id, t) →
      t.verificationStatus = VStatus.approved →
      l.any (advFilter id) = true ∧
      (updateFirst (advFilter id) (setAdv false) l).find?
          (fun e => e.1 == id) = some (id, { t with isAdvertised := false }) := by
  intro l
  induction l with
  | nil => intro hf _; simp [List.find?] at hf
  | cons x xs ih =>
    intro hf ha
    cases hx : (x.1 == id) with
    | true =>
      simp only [List.find?, hx] at hf
      have hx2 : x = (id, t) := by injection hf
      subst hx2
      have hq : advFilter id (id, t) = true := by
        simp [advFilter, ha]
      refine ⟨by simp [hq], ?_⟩
      simp only [updateFirst, hq, if_true]
      simp [List.find?, setAdv]
    | false =>
      simp only [List.find?, hx] at hf
      obtain ⟨hany, hfind⟩ := ih hf ha
      have hq : advFilter id x = false := by
        simp [advFilter, hx]
      refine ⟨by simp [hany, hq], ?_⟩
      simp only [updateFirst, hq, Bool.false_eq_true, if_false]
      simp only [List.find?, hx]
      exact hfind

/-- C8 (amended): a revoke call succeeds and clears the isAdvertised
flag for any ticket whose stored document is approved, whatever the
current value of the flag (so revoking an already-unadvertised approved
ticket is a no-op success); when no document with that id is approved
(the id is absent or the ticket is pending or rejected), the route
answers with the 404 branch and changes nothing. -/
theorem revokeSlot_behavior (db : DB) (id : Nat) :
    (∀ t, db.tickets.find? (fun e => e.1 == id) = some (id, t) →
        t.verificationStatus = VStatus.approved →
        (advertiseTicket db id false).1 = AdvResult.ok ∧
        (advertiseTicket db id false).2.tickets.find? (fun e => e.1 == id)
          = some (id, { t with isAdvertised := false })) ∧
    ((∀ e ∈ db.tickets,
        ¬(e.1 = id ∧ e.2.verificationStatus = VStatus.approved)) →
      advertiseTicket db id false = (AdvResult.notFound, db)) := by
  constructor
  · intro t hf ha
    obtain ⟨hany, hfind⟩ := revoke_core id t db.tickets hf ha
    unfold advertiseTicket
    simp [hany, hfind]
  · intro h
    have hany : db.tickets.any (advFilter id) = false := by
      simp only [List.any_eq_false]
      intro x hx
      have hnx := h x hx
      simp only [advFilter, Bool.and_eq_true, beq_iff_eq]
      exact fun hc => hnx hc
    unfold advertiseTicket
    simp [hany]

/-- State for the C8 counterexample: ticket 1 exists but is pending (and
still carries the advertised flag). -/
def dbC8 : DB :=
  { users := [], tickets := [(1, mkTicket "v" 10 VStatus.pending true)],
    bookings := [], transactions := [] }

/-- Counterexample for C8: revoking the existing, pending ticket 1 does
not succeed as the claim demands but lands on the 404 branch, leaving
everything unchanged. -/
theorem revoke_fails_on_unapproved_ticket :
    advertiseTicket dbC8 1 false = (AdvResult.notFound, dbC8) := by
  decide

/-- State for the C8 witness: ticket 1 is approved and advertised. -/
def dbC8w : DB :=
  { users := [], tickets := [(1, mkTicket "v" 10 VStatus.approved true)],
    bookings := [], transactions := [] }

/-- Witness for C8 at a concrete approved advertised ticket. -/
theorem revokeSlot_behavior_witness :
    (advertiseTicket dbC8w 1 false).1 = AdvResult.ok ∧
    (advertiseTicket dbC8w 1 false).2.tickets.find? (fun e => e.1 == 1)
      = some (1, { mkTicket "v" 10 VStatus.approved true with
                   isAdvertised := false }) :=
  (revokeSlot_behavior dbC8w 1).1 (mkTicket "v" 10 VStatus.approved true)
    (by decide) (by decide)

/-- Mapping a projection across updateFirst is invisible when the
rewrite preserves the projection. -/
lemma map_updateFirst_proj (proj : α → β) (p : α → Bool) (f : α → α)
    (hpf : ∀ x, proj (f x) = proj x) :
    ∀ l : List α, (updateFirst p f l).map proj = l.map proj := by
  intro l
  induction l with
  | nil => rfl
  | cons x xs ih =>
    cases hx : p x with
    | true => simp [updateFirst, hx, hpf x]
    | false => simp [updateFirst, hx, ih]

/-- The projection a vendor ticket update must not disturb. -/
def protectedView (e : Nat × Ticket) :
    Nat × VStatus × Bool × String :=
  (e.1, e.2.verificationStatus, e.2.isAdvertised, e.2.vendorEmail)

/-- C9 (amended): the vendor ticket-update route strips _id,
verificationStatus, isAdvertised and vendorEmail from the request body,
so for every request it leaves every ticket id, verification status,
advertised flag and vendor identity unchanged and touches no other
collection; the quantity field, however, is not stripped and can be
rewritten by this route (see the counterexample), so the exclusive
ownership of quantity by the payment decrement does not hold. -/
theorem updateTicketRoute_frame (db : DB) (id : Nat) (body : TicketPatch) :
    (updateTicketRoute db id body).2.tickets.map protectedView
      = db.tickets.map protectedView ∧
    (updateTicketRoute db id body).2.users = db.users ∧
    (updateTicketRoute db id body).2.bookings = db.bookings ∧
    (updateTicketRoute db id body).2.transactions = db.transactions := by
  by_cases h : db.tickets.any (fun e => e.1 == id) = true
  · simp only [updateTicketRoute, h, if_true]
    refine ⟨?_, trivial, trivial, trivial⟩
    exact map_updateFirst_proj protectedView (fun e => e.1 == id)
      (fun e => (e.1, applyPatch (stripProtected body) e.2))
      (fun x => by simp [protectedView, applyPatch, stripProtected])
      db.tickets
  · simp [updateTicketRoute, h]

/-- State for the C9 counterexample: ticket 1 holds 10 units. -/
def dbC9 : DB :=
  { users := [], tickets := [(1, mkTicket "v" 10 VStatus.approved false)],
    bookings := [], transactions := [] }

/-- A request body that only sets quantity. -/
def patchC9 : TicketPatch :=
  { vendorEmail := none, quantity := some 999, pricePerUnit := none,
    verificationStatus := none, isAdvertised := none }

/-- Counterexample for C9: the vendor update route happily rewrites the
remaining quantity from 10 to 999, although the claim says the route
leaves quantity unchanged and only the payment decrement mutates it. -/
theorem updateTicketRoute_mutates_quantity :
    ((updateTicketRoute dbC9 1 patchC9).2.tickets.find?
        (fun e => e.1 == 1)).map (fun e => e.2.quantity) = some 999 := by
  decide

/-- C10: ticket creation stores the document with verificationStatus
pending and isAdvertised false no matter what the request body carried:
the overrides are applied after the body spread, so they always win. -/
theorem createTicket_forces_pending_unadvertised (db : DB) (newId : Nat)
    (body : Ticket) :
    ∃ t, (createTicket db newId body).tickets = (newId, t) :: db.tickets ∧
      t.verificationStatus = VStatus.pending ∧ t.isAdvertised = false :=
  ⟨_, rfl, rfl, rfl⟩

end NexTicket
